import Mathlib

/-!
# Verification of the ctf-builder deployment and test orchestration engine

Shallow embedding of the port allocator, the Docker deploy start/stop
operations, the Docker test verifier, the env-file argument resolution,
the Kubernetes manifest synthesis and the test-orchestrator control flow,
with theorems settling the specification claims about them.
-/

namespace CtfBuilder

/-- Error taxonomy of `src/ctf_builder/error.py`: `BuildError`, `DeployError`,
`TestError`, `ParseError` and `SkipError`.  The optional `error` payload of the
Python classes (an attached exception object) is modelled as the exception's
rendered message. -/
inductive LibError where
  | buildErr (context msg : String) (error : Option String)
  | deployErr (context msg : String) (error : Option String)
  | testErr (context expected : String) (actual : Option String) (error : Option String)
  | parseErr (path msg : String)
  | skip
deriving DecidableEq, Repr

/-- `MAX_TCP_PORT` from `src/ctf_builder/cmd/common.py`. -/
def MAX_TCP_PORT : Int := 65535

/-- The while-loop of `port_generator` (`src/ctf_builder/cmd/common.py:60-69`)
as a stream: `portGenFrom maxPort port n` is the value produced by the
`(n+1)`-th `next()` when the loop variable currently holds `port`.  Each step
first evaluates the break test `port < 0 or port > max_port`; once the loop
breaks the generator yields `None` forever. -/
def portGenFrom (maxPort : Int) : Int → Nat → Option Int
  | port, 0 => if port < 0 ∨ port > maxPort then none else some port
  | port, n + 1 =>
      if port < 0 ∨ port > maxPort then none else portGenFrom maxPort (port + 1) n

/-- `port_generator(port)` from `src/ctf_builder/cmd/common.py:58-69`:
`max_port = min(port + CHALLENGE_MAX_PORTS, MAX_TCP_PORT)`, then ports are
yielded while the loop test passes.  The configuration constant
`CHALLENGE_MAX_PORTS` (the configured maximum port span per challenge, read
from `ctf_builder.config`) is threaded as the explicit parameter
`maxPorts`. -/
def port_generator (maxPorts : Int) (port : Int) (n : Nat) : Option Int :=
  portGenFrom (min (port + maxPorts) MAX_TCP_PORT) port n

/-- The allocator base offset used per challenge index by
`start` in `src/ctf_builder/cmd/docker/start.py:51-53`:
`context.port + challenge_index * CHALLENGE_MAX_PORTS`. -/
def challenge_port_base (basePort : Int) (index : Nat) (maxPorts : Int) : Int :=
  basePort + index * maxPorts

/-- C2.  The claim states that for base `b` and configured span `s` the
allocator yields exactly `s` non-null values `b, …, b+s-1` and never a value
outside `[b, b+s)`.  The loop test of `port_generator` uses `port > max_port`
rather than `port >= max_port`, so the generator in fact yields `s + 1`
values `b, …, b+s`: with base `100` and span `5` the sixth call still yields
`105`, which lies outside `[100, 105)`, and only the seventh call yields
`None`. -/
theorem port_generator_yields_span_plus_one_values :
    port_generator 5 100 5 = some 105 ∧
    port_generator 5 100 6 = none ∧
    ¬(105 < 100 + 5) := by
  refine ⟨by decide, by decide, by decide⟩

/-- C3.  The claim states that the port sets of two distinct challenges are
disjoint for every configured base port and span.  Because `port_generator`
yields the inclusive range `[base, base + span]`, the allocators of adjacent
challenges share the boundary port: with base `8000` and span `5`, challenge
`0` (base `8000`) yields `8005` on its sixth call and challenge `1`
(base `8005`) yields `8005` on its first call. -/
theorem adjacent_challenge_allocators_share_boundary_port :
    port_generator 5 (challenge_port_base 8000 0 5) 5 = some 8005 ∧
    port_generator 5 (challenge_port_base 8000 1 5) 0 = some 8005 ∧
    (0 : Nat) ≠ 1 := by
  refine ⟨by decide, by decide, by decide⟩

/-! ## Python `dict` on insertion-ordered association lists -/

/-- Python dict update `d[k] = v` on an insertion-ordered association list:
when the key is already present its value is replaced in place, otherwise the
pair is appended at the end. -/
def dictInsert {β : Type} (d : List (String × β)) (k : String) (v : β) :
    List (String × β) :=
  if d.any (fun p => p.1 == k) then d.map (fun p => if p.1 == k then (k, v) else p)
  else d ++ [(k, v)]

/-- Python dict lookup on an association list. -/
def dictFind {β : Type} (d : List (String × β)) (k : String) : Option β :=
  (d.find? (fun p => p.1 == k)).map (fun p => p.2)

theorem find?_update_of_ne {β : Type} {k k' : String} (v : β) (hk : k' ≠ k) :
    ∀ d : List (String × β),
      (d.map (fun p => if p.1 == k then (k, v) else p)).find? (fun p => p.1 == k') =
        d.find? (fun p => p.1 == k')
  | [] => rfl
  | q :: rest => by
    rw [List.map_cons]
    by_cases hq : q.1 = k
    · rw [if_pos (by simpa using hq)]
      rw [List.find?_cons_of_neg _ (by simp [Ne.symm hk]),
        List.find?_cons_of_neg _ (by simp [hq, Ne.symm hk])]
      exact find?_update_of_ne v hk rest
    · rw [if_neg (by simpa using hq)]
      by_cases hq' : q.1 = k'
      · rw [List.find?_cons_of_pos _ (by simpa using hq')]
        rw [List.find?_cons_of_pos _ (by simpa using hq')]
      · rw [List.find?_cons_of_neg _ (by simpa using hq')]
        rw [List.find?_cons_of_neg _ (by simpa using hq')]
        exact find?_update_of_ne v hk rest

theorem dictFind_update_of_eq {β : Type} (k : String) (v : β) :
    ∀ d : List (String × β),
      dictFind (d.map (fun p => if p.1 == k then (k, v) else p)) k =
        if d.any (fun p => p.1 == k) then some v else none
  | [] => rfl
  | q :: rest => by
    have ih := dictFind_update_of_eq k v rest
    unfold dictFind at ih ⊢
    by_cases hq : q.1 = k
    · simp [hq]
    · have hqf : (q.1 == k) = false := by simp [hq]
      simp at ih
      simp [hq, ih]
      rw [hqf, Bool.false_or]

/-- Lookup after a Python dict update: the updated key maps to the new value,
all other keys are untouched. -/
theorem dictFind_dictInsert {β : Type} (d : List (String × β)) (k : String)
    (v : β) (k' : String) :
    dictFind (dictInsert d k v) k' = if k' = k then some v else dictFind d k' := by
  unfold dictInsert
  by_cases hany : d.any (fun p => p.1 == k) = true
  · rw [if_pos hany]
    by_cases hk : k' = k
    · subst hk
      rw [if_pos rfl, dictFind_update_of_eq, if_pos hany]
    · rw [if_neg hk]
      unfold dictFind
      rw [find?_update_of_ne v hk]
  · rw [if_neg hany]
    have hnone : d.find? (fun p => p.1 == k) = none := by
      rw [List.find?_eq_none]
      intro x hx
      have := (List.any_eq_false.mp (Bool.eq_false_iff.mpr hany)) x hx
      simpa using this
    by_cases hk : k' = k
    · subst hk
      unfold dictFind
      rw [List.find?_append, hnone]
      simp
    · rw [if_neg hk]
      unfold dictFind
      rw [List.find?_append]
      have h2 : ([(k, v)].find? (fun p => p.1 == k') : Option (String × β)) = none := by
        simp [List.find?_cons, Ne.symm hk]
      rw [h2, Option.or_none]

/-! ## Env-file argument resolution (`src/ctf_builder/models/arguments.py`) -/

/-- One line of an env file as read by `EnvFileArguments.build`
(`src/ctf_builder/models/arguments.py:43-46`): when `line.find("=")` is `-1`
(no separator) the line is skipped; otherwise the key is the text before the
first `=` and the value the text after it. -/
def parseEnvLine (line : String) : Option (String × String) :=
  if '=' ∈ line.toList then
    some ((line.toList.takeWhile (fun c => c ≠ '=')).asString,
          ((line.toList.dropWhile (fun c => c ≠ '=')).drop 1).asString)
  else none

/-- The loop body of `EnvFileArguments.build`
(`src/ctf_builder/models/arguments.py:42-50`): a parsed pair is dropped when
the key allow-list is non-empty (the source's `key_set` is `None` exactly when
`self.keys` is empty) and does not contain the key; kept pairs are entered
into the result dict. -/
def envFileStep (keys : List String) (out : List (String × String))
    (line : String) : List (String × String) :=
  match parseEnvLine line with
  | none => out
  | some (k, v) => if keys ≠ [] ∧ k ∉ keys then out else dictInsert out k v

/-- `EnvFileArguments.build` (`src/ctf_builder/models/arguments.py:33-52`)
after the file contents `data` have been read: iterate `data.split("\n")`
and build the result dict. -/
def envFileArguments_build (keys : List String) (data : String) :
    List (String × String) :=
  (data.splitOn "\n").foldl (envFileStep keys) []

/-- Claim-side lookup for C10, following the claim's words: the value
associated with `k` is the one from the last line that parses to key `k`
(lines without `=` are skipped), provided the allow-list is empty (no
filtering) or contains `k`; otherwise there is no value. -/
def envFileClaimLookup (keys : List String) (lines : List String) (k : String) :
    Option String :=
  match lines with
  | [] => none
  | line :: rest =>
    (envFileClaimLookup keys rest k).or
      (match parseEnvLine line with
       | some (k', v) => if (keys = [] ∨ k ∈ keys) ∧ k' = k then some v else none
       | none => none)

theorem envFile_foldl_lookup (keys : List String) (k : String) :
    ∀ (lines : List String) (out : List (String × String)),
      dictFind (lines.foldl (envFileStep keys) out) k =
        (envFileClaimLookup keys lines k).or (dictFind out k)
  | [], out => by simp [envFileClaimLookup]
  | line :: rest, out => by
    have hstep : dictFind (envFileStep keys out line) k =
        ((match parseEnvLine line with
          | some (k', v) => if (keys = [] ∨ k ∈ keys) ∧ k' = k then some v else none
          | none => none) : Option String).or (dictFind out k) := by
      cases hline : parseEnvLine line with
      | none => simp [envFileStep, hline]
      | some kv =>
        obtain ⟨k₁, v⟩ := kv
        simp only [envFileStep, hline]
        by_cases hfilter : keys ≠ [] ∧ k₁ ∉ keys
        · rw [if_pos hfilter]
          have hcond : ¬((keys = [] ∨ k ∈ keys) ∧ k₁ = k) := by
            rintro ⟨hin, rfl⟩
            rcases hin with h | h
            · exact hfilter.1 h
            · exact hfilter.2 h
          rw [if_neg hcond]
          simp
        · rw [if_neg hfilter]
          rw [dictFind_dictInsert]
          by_cases hk : k = k₁
          · subst hk
            have hcond : (keys = [] ∨ k ∈ keys) ∧ k = k := by
              refine ⟨?_, rfl⟩
              by_cases hkeys : keys = []
              · exact Or.inl hkeys
              · refine Or.inr ?_
                by_contra hmem
                exact hfilter ⟨hkeys, hmem⟩
            rw [if_pos rfl, if_pos hcond]
            simp
          · have hcond : ¬((keys = [] ∨ k ∈ keys) ∧ k₁ = k) := by
              rintro ⟨_, rfl⟩
              exact hk rfl
            rw [if_neg hk, if_neg hcond]
            simp
    calc dictFind ((line :: rest).foldl (envFileStep keys) out) k
        = dictFind (rest.foldl (envFileStep keys) (envFileStep keys out line)) k := rfl
      _ = (envFileClaimLookup keys rest k).or (dictFind (envFileStep keys out line) k) :=
          envFile_foldl_lookup keys k rest (envFileStep keys out line)
      _ = (envFileClaimLookup keys (line :: rest) k).or (dictFind out k) := by
          rw [hstep, ← Option.or_assoc]
          rfl

/-- C10.  For the env-file Arguments kind, an empty key allow-list means no
filtering and a non-empty allow-list keeps exactly the keys it contains: for
every key `k`, the dict built by `EnvFileArguments.build` maps `k` to the
value of the last line of the file that parses to key `k` (lines without an
`=` separator skipped, later duplicates overwriting earlier ones) when the
allow-list is empty or contains `k`, and to nothing otherwise. -/
theorem envFileArguments_build_filters_and_last_wins
    (keys : List String) (data : String) (k : String) :
    dictFind (envFileArguments_build keys data) k =
      envFileClaimLookup keys (data.splitOn "\n") k := by
  unfold envFileArguments_build
  rw [envFile_foldl_lookup]
  simp [dictFind]

/-! ## Docker deploy stop (`src/ctf_builder/models/deploy/docker.py`) -/

/-- Outcome of the container-runtime interaction inside
`DeployDocker.docker_stop`: the forced removal succeeded, the container was
absent (`docker.errors.NotFound`), or the runtime reported an API failure
(`docker.errors.APIError`, with its message). -/
inductive StopOutcome where
  | removed
  | notFound
  | apiError (msg : String)
deriving DecidableEq, Repr

/-- `DeployDocker.docker_stop` (`src/ctf_builder/models/deploy/docker.py:298-318`).
The `except docker.errors.APIError` arm (lines 315-316) builds the list
`[DeployError(context=..., msg="failed to stop", error=e)]` as a bare
expression statement without returning or storing it, so control falls
through to `return []`. -/
def docker_stop (contextName : String) (clientPresent : Bool)
    (outcome : StopOutcome) (skip_not_found : Bool) : List LibError :=
  if ¬clientPresent then [.buildErr "Docker" "client not initialized" none]
  else
    match outcome with
    | .removed => []
    | .notFound =>
      if skip_not_found then [.skip]
      else [.deployErr contextName "failed to stop" none]
    | .apiError _ => []

/-- C5.  The not-found behavior matches the claim (exactly one Skip when
`skip_not_found` is set, exactly one fatal Deploy error otherwise), but the
claim's final clause fails: for any other API failure during removal
`docker_stop` returns the empty list in both modes — the constructed
`DeployError` is discarded and the stop failure is silently dropped. -/
theorem docker_stop_drops_api_error :
    docker_stop "host_0" true .notFound true = [.skip] ∧
    docker_stop "host_0" true .notFound false =
      [.deployErr "host_0" "failed to stop" none] ∧
    docker_stop "host_0" true (.apiError "500 Server Error") false = [] ∧
    docker_stop "host_0" true (.apiError "500 Server Error") true = [] := by
  refine ⟨rfl, rfl, rfl, rfl⟩

/-! ## Host-reference resolution in the Docker tester
(`src/ctf_builder/build/tester.py`) -/

/-- Result of resolving a challenge's `Host` reference inside
`BuildTesterDocker.build`: rejected with a `BuildError("invalid host")`,
resolved to a deployer, or an uncaught `IndexError` from the list access. -/
inductive HostResolution (α : Type) where
  | rejected
  | resolved (deployer : α)
  | indexError
deriving DecidableEq, Repr

/-- The bound check applied to `challenge.host.index` in
`BuildTesterDocker.build` (`src/ctf_builder/build/tester.py:193-195`): the
challenge is rejected when `index < 0 or index > len(deployers)`. -/
def hostIndexRejected (index : Int) (numDeployers : Nat) : Bool :=
  decide (index < 0) || decide (index > (numDeployers : Int))

/-- The host-resolution step of `BuildTesterDocker.build`
(`src/ctf_builder/build/tester.py:191-204`): when the bound check passes, the
source evaluates `context.deployers[challenge.host.index]`; an out-of-range
access raises `IndexError`, which nothing in `build` catches. -/
def resolveChallengeHost {α : Type} (deployers : List α) (index : Int) :
    HostResolution α :=
  if hostIndexRejected index deployers.length then .rejected
  else
    match deployers.get? index.toNat with
    | some d => .resolved d
    | none => .indexError

/-- C6.  The claim says an out-of-range `Host` index — including the boundary
case `index = len(deploy)` — is rejected with a structured error and never
crashes.  The check uses `>` instead of `>=`: with one deployer, index `1`
passes the check and the subsequent list access raises an uncaught
`IndexError`, while indices `2` and `-1` are correctly rejected. -/
theorem host_index_boundary_case_crashes :
    hostIndexRejected 1 1 = false ∧
    resolveChallengeHost [()] 1 = .indexError ∧
    resolveChallengeHost [()] 2 = .rejected ∧
    resolveChallengeHost [()] (-1) = .rejected := by
  refine ⟨by decide, by decide, by decide, by decide⟩

/-! ## Byte-string search -/

/-- Python `haystack.find(needle)` on byte/char sequences: index of the first
occurrence of `needle`, `none` when absent (Python returns `-1`). -/
def bytesFind (needle : List Char) : List Char → Option Nat
  | [] => if needle.isPrefixOf ([] : List Char) then some 0 else none
  | c :: rest =>
    if needle.isPrefixOf (c :: rest) then some 0
    else (bytesFind needle rest).map (· + 1)

/-- Python `needle in haystack` on strings. -/
def strContains (needle hay : String) : Bool :=
  (bytesFind needle.toList hay.toList).isSome

/-! ## Docker deploy start (`src/ctf_builder/models/deploy/docker.py`) -/

/-- One step of the `Arguments`-resolution loops of `DeployDocker`
(`__build_image` lines 141-153, the `env` loops of `docker_start` lines
184-193 and of `k8s_build` lines 338-350): the outcome of each
`Arguments.build` call is threaded as input; the first `None` aborts the
collection (the caller records one error and discards the partial map),
otherwise all pairs are merged into one dict in order. -/
def resolveArgsMapFrom (acc : List (String × String)) :
    List (Option (List (String × String))) → Option (List (String × String))
  | [] => some acc
  | none :: _ => none
  | some m :: rest =>
    resolveArgsMapFrom (m.foldl (fun d p => dictInsert d p.1 p.2) acc) rest

/-- The `Arguments`-resolution loop starting from an empty dict. -/
def resolveArgsMap (results : List (Option (List (String × String)))) :
    Option (List (String × String)) :=
  resolveArgsMapFrom [] results

/-- Outcome of the `containers.run` call in `DeployDocker.docker_start`:
the detached container started, the image was missing
(`docker.errors.ImageNotFound`), or the runtime reported an API failure
(`docker.errors.APIError`, with its rendered message `str(e)`). -/
inductive RunOutcome where
  | started
  | imageNotFound
  | apiError (msg : String)
deriving DecidableEq, Repr

/-- The external interactions of one `docker_start` call: client presence and
Dockerfile resolution (`__dockerfile`), the build-argument sources and the
image build (`__build_image`), the environment sources, and the
`containers.run` outcome. -/
structure StartWorld where
  clientPresent : Bool
  dockerfileIsFile : Bool
  argsResults : List (Option (List (String × String)))
  imageBuildOk : Bool
  envResults : List (Option (List (String × String)))
  run : RunOutcome
deriving DecidableEq, Repr

/-- `DeployDocker.docker_start` (`src/ctf_builder/models/deploy/docker.py:169-296`).
Public-port binding allocation (lines 195-201) consumes the context's port
generator but contributes nothing to the returned error list; likewise alias,
CPU and memory computation (lines 206-242) only shape the `containers.run`
call, whose outcome is `w.run`.  At the `try` block the accumulated error
list is empty, so each `except` arm returns a singleton. -/
def docker_start (contextName : String) (w : StartWorld) (skip_reuse : Bool) :
    List LibError :=
  if ¬w.clientPresent then [.buildErr "Docker" "client not initialized" none]
  else if ¬w.dockerfileIsFile then [.buildErr "Dockerfile" "is not a file" none]
  else
    match resolveArgsMap w.argsResults with
    | none => [.buildErr contextName "invalid build args" none]
    | some _ =>
      if ¬w.imageBuildOk then
        [.buildErr "Dockerfile" "failed to build" (some "docker.errors.BuildError")]
      else
        match resolveArgsMap w.envResults with
        | none => [.buildErr contextName "invalid environment" none]
        | some _ =>
          match w.run with
          | .started => []
          | .imageNotFound => [.deployErr contextName "image not found" none]
          | .apiError msg =>
            if strContains "reuse that name" msg then
              if skip_reuse then [.skip]
              else
                [.deployErr contextName
                  "failed to deploy due to duplicate container" (some msg)]
            else [.deployErr contextName "failed to deploy" (some msg)]

/-- C4.  Once the Dockerfile resolves, the image builds and the argument and
environment sources resolve, `docker_start` maps the `containers.run` outcome
to: no error on success; exactly one fatal Deploy error for a missing image;
and for an API error whose message mentions `reuse that name` exactly one
Skip error when `skip_reuse` is set and exactly one fatal Deploy error
otherwise, while any other API error is exactly one fatal Deploy error. -/
theorem docker_start_reuse_skip_or_fatal (contextName : String) (w : StartWorld)
    (skip_reuse : Bool)
    (hclient : w.clientPresent = true) (hfile : w.dockerfileIsFile = true)
    (hargs : (resolveArgsMap w.argsResults).isSome = true)
    (himg : w.imageBuildOk = true)
    (henv : (resolveArgsMap w.envResults).isSome = true) :
    docker_start contextName w skip_reuse =
      match w.run with
      | .started => []
      | .imageNotFound => [.deployErr contextName "image not found" none]
      | .apiError msg =>
        if strContains "reuse that name" msg then
          if skip_reuse then [.skip]
          else
            [.deployErr contextName
              "failed to deploy due to duplicate container" (some msg)]
        else [.deployErr contextName "failed to deploy" (some msg)] := by
  obtain ⟨ma, hma⟩ := Option.isSome_iff_exists.mp hargs
  obtain ⟨me, hme⟩ := Option.isSome_iff_exists.mp henv
  simp [docker_start, hclient, hfile, himg, hma, hme]

/-- A run whose `containers.run` call fails with the container-name-conflict
API error reported by the Docker daemon. -/
def startWorldReuse : StartWorld :=
  { clientPresent := true
    dockerfileIsFile := true
    argsResults := []
    imageBuildOk := true
    envResults := []
    run := .apiError
      "409 Client Error: Conflict (you have to remove that container to be able to reuse that name)" }

theorem docker_start_reuse_skip_or_fatal_witness :
    docker_start "host_0" startWorldReuse true = [.skip] ∧
    docker_start "host_0" startWorldReuse false =
      [.deployErr "host_0" "failed to deploy due to duplicate container"
        (some "409 Client Error: Conflict (you have to remove that container to be able to reuse that name)")] := by
  constructor
  · rw [docker_start_reuse_skip_or_fatal "host_0" startWorldReuse true
      rfl rfl rfl rfl rfl]
    decide
  · rw [docker_start_reuse_skip_or_fatal "host_0" startWorldReuse false
      rfl rfl rfl rfl rfl]
    decide

/-! ## Run-time subclass dispatch (`src/ctf_builder/build/utils.py`) -/

/-- Outcome of a Python call that either returns a value or raises. -/
inductive PyResult (α : Type) where
  | ok (val : α)
  | exc
deriving DecidableEq, Repr

/-- `getattr(BuildDeployerDocker, "__orig_bases__", None)`: the class is
declared `class BuildDeployerDocker(BuildDeployer)`
(`src/ctf_builder/build/deployer.py:85`) with a plain, non-subscripted base,
so Python sets no `__orig_bases__` on it and the `getattr` yields `None`. -/
def buildDeployerDockerOrigBases : Option (List String) := none

/-- Likewise for `class BuildTesterDocker(BuildTester)`
(`src/ctf_builder/build/tester.py:105`). -/
def buildTesterDockerOrigBases : Option (List String) := none

/-- Likewise for the plain `BuildArgs` subclasses `BuildArgsList`,
`BuildArgsMap` and `BuildArgsEnv` (`src/ctf_builder/build/args.py:25-45`). -/
def buildArgsSubclassOrigBases : Option (List String) := none

/-- `subclass_get` (`src/ctf_builder/build/utils.py:6-18`) up to its first
assertion: `orig_bases = getattr(subclass, "__orig_bases__", None)` followed
by `assert orig_bases`.  A `None` or empty attribute raises
`AssertionError`; the remaining steps (`typing.get_args` and the isinstance
dispatch) are unreachable for every subclass in this source and are not
modelled. -/
def subclassGetFirstAssert (origBases : Option (List String)) : PyResult Unit :=
  match origBases with
  | none => .exc
  | some bases => if bases.isEmpty then .exc else .ok ()

/-- `BuildDeployer.get` (`src/ctf_builder/build/deployer.py:42-44`), which
dispatches through `subclass_get` over the sole subclass
`BuildDeployerDocker`. -/
def buildDeployerGet : PyResult Unit :=
  subclassGetFirstAssert buildDeployerDockerOrigBases

/-- `BuildTester.get` (`src/ctf_builder/build/tester.py:37-39`). -/
def buildTesterGet : PyResult Unit :=
  subclassGetFirstAssert buildTesterDockerOrigBases

/-- `BuildArgs.get` (`src/ctf_builder/build/args.py:15-17`). -/
def buildArgsGet : PyResult Unit :=
  subclassGetFirstAssert buildArgsSubclassOrigBases

/-- The attributes defined on `BuildDeployer` and `BuildDeployerDocker`
(`src/ctf_builder/build/deployer.py:36-265`); neither class defines
`has_healthcheck` or `is_healthy`. -/
def buildDeployerDockerAttrs : List String :=
  ["__type__", "get", "has_host", "public_ports", "deploy_ports", "is_active",
   "start", "stop", "get_name"]

/-- Python attribute lookup `obj.name`: a missing attribute raises
`AttributeError`. -/
def pyGetAttr (attrs : List String) (name : String) : PyResult Unit :=
  if attrs.contains name then .ok () else .exc

/-! ## The Docker test verifier (`src/ctf_builder/build/tester.py`) -/

/-- Environment value passed to a verifier container: the Python dict literal
mixes strings, an int and possibly-`None` optionals. -/
inductive EnvValue where
  | str (v : String)
  | int (v : Int)
  | optStr (v : Option String)
  | optInt (v : Option Int)
deriving DecidableEq, Repr

/-- `DockerTestContext` (`src/ctf_builder/build/tester.py:47-58`).  The docker
client, image and network are external handles not inspected by the claims
and are omitted; `errors` is the context's private error list. -/
structure DockerTestContext where
  environment : List (String × String)
  challenge_id : Int
  challenge_host : Option String
  challenge_port : Option Int
  flag : String
  flag_type : String
  errors : List LibError
deriving DecidableEq, Repr

/-- The environment dict literal passed to `containers.run` by `docker_test`
(`src/ctf_builder/build/tester.py:67-74`): `{**context.environment,
"CHALLENGE_ID": …, "CHALLENGE_HOST": …, "CHALLENGE_PORT": …, "FLAG": …,
"FLAG_TYPE": …}` — the five fixed keys are entered after, and thus override,
the tester-level environment. -/
def dockerTestEnvironment (ctx : DockerTestContext) : List (String × EnvValue) :=
  let base := ctx.environment.foldl (fun d p => dictInsert d p.1 (EnvValue.str p.2)) []
  dictInsert (dictInsert (dictInsert (dictInsert (dictInsert base
    "CHALLENGE_ID" (.int ctx.challenge_id))
    "CHALLENGE_HOST" (.optStr ctx.challenge_host))
    "CHALLENGE_PORT" (.optInt ctx.challenge_port))
    "FLAG" (.str ctx.flag))
    "FLAG_TYPE" (.str ctx.flag_type)

/-- Outcome of the `containers.run` call in `docker_test`: a clean exit-0 run,
a `docker.errors.ContainerError` (non-zero exit status; its `stderr` byte
string may be `None`), or any other exception with its rendered message. -/
inductive TestRunOutcome where
  | exitZero
  | containerError (stderr : Option (List Nat))
  | otherException (msg : String)
deriving DecidableEq, Repr

/-- The byte string `b"FAIL: "` searched for on the verifier's error stream
(`src/ctf_builder/build/tester.py:80`); its length is the `6` in
`stderr[fail_offset + 6:]`. -/
def failMarkerBytes : List Nat := [70, 65, 73, 76, 58, 32]

/-- Python `haystack.find(needle)` on byte strings: index of the first
occurrence of `needle`, `none` when absent (Python returns `-1`). -/
def byteSeqFind (needle : List Nat) : List Nat → Option Nat
  | [] => if needle.isPrefixOf ([] : List Nat) then some 0 else none
  | c :: rest =>
    if needle.isPrefixOf (c :: rest) then some 0
    else (byteSeqFind needle rest).map (· + 1)

/-- Strict UTF-8 decoding of a byte sequence, as Python `bytes.decode()`:
`none` models the raised `UnicodeDecodeError` — stray continuation bytes,
truncated or overlong sequences, surrogates and out-of-range code points all
fail. -/
def utf8Decode : List Nat → Option (List Char)
  | [] => some []
  | b :: rest =>
    if b < 0x80 then
      (utf8Decode rest).map (fun cs => Char.ofNat b :: cs)
    else if b < 0xC2 then none
    else if b < 0xE0 then
      match rest with
      | b2 :: rest2 =>
        if 0x80 ≤ b2 ∧ b2 < 0xC0 then
          (utf8Decode rest2).map (fun cs =>
            Char.ofNat ((b - 0xC0) * 0x40 + (b2 - 0x80)) :: cs)
        else none
      | [] => none
    else if b < 0xF0 then
      match rest with
      | b2 :: b3 :: rest3 =>
        if (0x80 ≤ b2 ∧ b2 < 0xC0) ∧ (0x80 ≤ b3 ∧ b3 < 0xC0) then
          let cp := (b - 0xE0) * 0x1000 + (b2 - 0x80) * 0x40 + (b3 - 0x80)
          if 0x800 ≤ cp ∧ ¬(0xD800 ≤ cp ∧ cp < 0xE000) then
            (utf8Decode rest3).map (fun cs => Char.ofNat cp :: cs)
          else none
        else none
      | _ => none
    else if b < 0xF5 then
      match rest with
      | b2 :: b3 :: b4 :: rest4 =>
        if (0x80 ≤ b2 ∧ b2 < 0xC0) ∧ (0x80 ≤ b3 ∧ b3 < 0xC0) ∧
            (0x80 ≤ b4 ∧ b4 < 0xC0) then
          let cp := (b - 0xF0) * 0x40000 + (b2 - 0x80) * 0x1000 +
            (b3 - 0x80) * 0x40 + (b4 - 0x80)
          if 0x10000 ≤ cp ∧ cp < 0x110000 then
            (utf8Decode rest4).map (fun cs => Char.ofNat cp :: cs)
          else none
        else none
      | _ => none
    else none

/-- `docker_test` (`src/ctf_builder/build/tester.py:61-102`): run the
verifier container; on `ContainerError` take `e.stderr if e.stderr else b""`
and search it for the `FAIL: ` marker.  Both handler branches then decode
bytes — `stderr[fail_offset + 6:].decode()` at line 86 and `stderr.decode()`
at line 92; a decode failure raises `UnicodeDecodeError` inside the handler,
which the sibling `except Exception` does not catch, so the exception
propagates and nothing is appended.  Otherwise exactly one `TestError` is
appended to the context's private error list; an exit-0 run appends
nothing. -/
def docker_test (ctx : DockerTestContext) (run : TestRunOutcome) :
    PyResult DockerTestContext :=
  match run with
  | .exitZero => .ok ctx
  | .containerError stderrOpt =>
    let stderr := stderrOpt.getD []
    match byteSeqFind failMarkerBytes stderr with
    | some off =>
      match utf8Decode (stderr.drop (off + 6)) with
      | some cs =>
        .ok { ctx with errors := ctx.errors ++
          [.testErr ("Challenge " ++ toString ctx.challenge_id) ctx.flag
            (some cs.asString) none] }
      | none => .exc
    | none =>
      match utf8Decode stderr with
      | some cs =>
        .ok { ctx with errors := ctx.errors ++
          [.testErr ("Challenge " ++ toString ctx.challenge_id) ctx.flag
            none (some cs.asString)] }
      | none => .exc
  | .otherException msg =>
    .ok { ctx with errors := ctx.errors ++
      [.testErr ("Challenge " ++ toString ctx.challenge_id) ctx.flag
        none (some msg)] }

/-- The condition under which the `ContainerError` handler's decode raises:
the marker branch decodes the post-marker suffix, the no-marker branch the
whole stream. -/
def handlerDecodeFails (stderr : List Nat) : Bool :=
  match byteSeqFind failMarkerBytes stderr with
  | some off => (utf8Decode (stderr.drop (off + 6))).isNone
  | none => (utf8Decode stderr).isNone

/-- A context for exercising the verifier's error handling. -/
def ctxDecodeErr : DockerTestContext :=
  { environment := []
    challenge_id := 1
    challenge_host := none
    challenge_port := none
    flag := "flag-x"
    flag_type := "static"
    errors := [] }

/-- C9, counterexample.  The claim says `docker_test` never propagates an
exception and converts every failure of the run into an appended Test error.
A `ContainerError` whose stderr is the single byte `0xFF` — not valid
UTF-8 — makes `stderr.decode()` at `src/ctf_builder/build/tester.py:92`
raise `UnicodeDecodeError` inside the handler; the exception propagates and
no Test error is appended. -/
theorem docker_test_unicode_decode_error_propagates :
    docker_test ctxDecodeErr (.containerError (some [255])) = .exc := by decide

/-- C9, amended.  `docker_test` is total except for the handler's decode:
every run either returns the context unchanged (a clean exit-0 run), returns
it with exactly one `TestError` appended to the private error list, or
raises — and it raises exactly on a `ContainerError` whose handler decode
fails. -/
theorem docker_test_total_except_undecodable_stderr (ctx : DockerTestContext)
    (run : TestRunOutcome) :
    (run = .exitZero ∧ docker_test ctx run = .ok ctx) ∨
    (∃ actual errPayload, docker_test ctx run =
      .ok { ctx with errors := ctx.errors ++
        [.testErr ("Challenge " ++ toString ctx.challenge_id) ctx.flag
          actual errPayload] }) ∨
    (∃ stderrOpt, run = .containerError stderrOpt ∧
      docker_test ctx run = .exc ∧
      handlerDecodeFails (stderrOpt.getD []) = true) := by
  cases run with
  | exitZero => exact Or.inl ⟨rfl, rfl⟩
  | containerError stderrOpt =>
    cases hfind : byteSeqFind failMarkerBytes (stderrOpt.getD []) with
    | some off =>
      cases hdec : utf8Decode ((stderrOpt.getD []).drop (off + 6)) with
      | some cs =>
        exact Or.inr (Or.inl ⟨some cs.asString, none,
          by simp [docker_test, hfind, hdec]⟩)
      | none =>
        refine Or.inr (Or.inr ⟨stderrOpt, rfl, ?_, ?_⟩)
        · simp [docker_test, hfind, hdec]
        · simp [handlerDecodeFails, hfind, hdec]
    | none =>
      cases hdec : utf8Decode (stderrOpt.getD []) with
      | some cs =>
        exact Or.inr (Or.inl ⟨none, some cs.asString,
          by simp [docker_test, hfind, hdec]⟩)
      | none =>
        refine Or.inr (Or.inr ⟨stderrOpt, rfl, ?_, ?_⟩)
        · simp [docker_test, hfind, hdec]
        · simp [handlerDecodeFails, hfind, hdec]
  | otherException msg =>
    exact Or.inr (Or.inl ⟨none, some msg, by simp [docker_test]⟩)

/-- A flag definition as consumed by the Docker tester loop: `regex` selects
the `FLAG_TYPE`, and `values` are the flag values resolved by
`BuildFlag.build` from the flag's `Args` source. -/
structure FlagDef where
  regex : Bool
  values : List String
deriving DecidableEq, Repr

/-- The `DockerTestContext` constructor expression of the tester loop
(`src/ctf_builder/build/tester.py:220-231`) for one flag definition and one
resolved flag value: `flag_type = "regex" if flag_def.regex else "static"`
and a fresh private error list. -/
def mkTestContext (environment : List (String × String)) (challenge_id : Int)
    (challenge_host : Option String) (challenge_port : Option Int)
    (fd : FlagDef) (v : String) : DockerTestContext :=
  { environment := environment
    challenge_id := challenge_id
    challenge_host := challenge_host
    challenge_port := challenge_port
    flag := v
    flag_type := if fd.regex then "regex" else "static"
    errors := [] }

/-- `BuildFlag.build` (`src/ctf_builder/build/flag.py:8-18`): its first step
`BuildArgs.get(flag.values)` dispatches through `subclass_get`, which raises
in this source (see `buildArgsGet`); the values the remaining lines would
produce are the flag definition's resolved values. -/
def buildFlagBuild (fd : FlagDef) : PyResult (List String) :=
  match buildArgsGet with
  | .exc => .exc
  | .ok _ => .ok fd.values

/-- The flag loop of `BuildTesterDocker.build` for one challenge
(`src/ctf_builder/build/tester.py:218-239`): one context per
(flag definition, resolved value) pair; a raising `BuildFlag.build`
propagates, so with any flag declared no context is ever constructed in this
source. -/
def mkTestContextsLoop (environment : List (String × String))
    (challenge_id : Int) (challenge_host : Option String)
    (challenge_port : Option Int) :
    List FlagDef → PyResult (List DockerTestContext)
  | [] => .ok []
  | fd :: rest =>
    match buildFlagBuild fd with
    | .exc => .exc
    | .ok vals =>
      match mkTestContextsLoop environment challenge_id challenge_host
          challenge_port rest with
      | .exc => .exc
      | .ok more =>
        .ok (vals.map
          (mkTestContext environment challenge_id challenge_host challenge_port fd)
            ++ more)

/-- The byte stream `b"FAIL: \xff"`: the marker followed by a byte that is
not valid UTF-8. -/
def stderrFlagBadUtf8 : List Nat := failMarkerBytes ++ [255]

/-- A concrete verifier context for the C7 contract. -/
def ctxVerifier : DockerTestContext :=
  { environment := [("EXTRA", "1")]
    challenge_id := 0
    challenge_host := some "ctf-net_0"
    challenge_port := some 8000
    flag := "flag-ok"
    flag_type := "static"
    errors := [] }

/-- C7, counterexample.  The claim says a non-zero exit or runtime-reported
container error contributes exactly one Test error, with the text after a
`FAIL: ` marker recorded as the observed value.  For a container error whose
stream is the marker followed by the byte `0xFF`, the marker is found but
`stderr[fail_offset + 6:].decode()` (`src/ctf_builder/build/tester.py:86`)
raises `UnicodeDecodeError` inside the handler: the exception propagates and
no Test error is contributed. -/
theorem verifier_nonutf8_stderr_contributes_no_error :
    byteSeqFind failMarkerBytes stderrFlagBadUtf8 = some 0 ∧
    docker_test ctxVerifier (.containerError (some stderrFlagBadUtf8)) = .exc := by
  refine ⟨by decide, by decide⟩

/-- C7, amended.  Every verifier run receives `CHALLENGE_ID`,
`CHALLENGE_HOST`, `CHALLENGE_PORT`, `FLAG` and `FLAG_TYPE` as environment
values; every context built by the tester-loop constructor carries
`FLAG_TYPE` `"regex"` for a regex flag definition and `"static"` otherwise;
an exit-0 run contributes no error; a container error or any other runtime
failure that returns contributes exactly one `TestError` carrying the
challenge id and the expected flag; and when the error stream contains the
`FAIL: ` marker and the text after it decodes, that text is recorded as the
observed value.  When the handler decode fails, `UnicodeDecodeError`
propagates and nothing is recorded (see the counterexample). -/
theorem verifier_contract_with_decodable_stderr :
    (∀ ctx : DockerTestContext,
      dictFind (dockerTestEnvironment ctx) "CHALLENGE_ID" =
          some (.int ctx.challenge_id) ∧
      dictFind (dockerTestEnvironment ctx) "CHALLENGE_HOST" =
          some (.optStr ctx.challenge_host) ∧
      dictFind (dockerTestEnvironment ctx) "CHALLENGE_PORT" =
          some (.optInt ctx.challenge_port) ∧
      dictFind (dockerTestEnvironment ctx) "FLAG" = some (.str ctx.flag) ∧
      dictFind (dockerTestEnvironment ctx) "FLAG_TYPE" =
          some (.str ctx.flag_type)) ∧
    (∀ env cid host port (fd : FlagDef) (v : String),
      (mkTestContext env cid host port fd v).flag_type =
        (if fd.regex then "regex" else "static") ∧
      (mkTestContext env cid host port fd v).flag = v) ∧
    (∀ ctx : DockerTestContext, docker_test ctx .exitZero = .ok ctx) ∧
    (∀ (ctx ctx' : DockerTestContext) (run : TestRunOutcome),
      run ≠ .exitZero → docker_test ctx run = .ok ctx' →
      ∃ actual errPayload, ctx'.errors =
        ctx.errors ++ [.testErr ("Challenge " ++ toString ctx.challenge_id)
          ctx.flag actual errPayload]) ∧
    (∀ (ctx : DockerTestContext) (stderr : List Nat) (off : Nat) (cs : List Char),
      byteSeqFind failMarkerBytes stderr = some off →
      utf8Decode (stderr.drop (off + 6)) = some cs →
      docker_test ctx (.containerError (some stderr)) =
        .ok { ctx with errors := ctx.errors ++
          [.testErr ("Challenge " ++ toString ctx.challenge_id) ctx.flag
            (some cs.asString) none] }) := by
  refine ⟨?_, ?_, ?_, ?_, ?_⟩
  · intro ctx
    refine ⟨?_, ?_, ?_, ?_, ?_⟩ <;>
      simp [dockerTestEnvironment, dictFind_dictInsert]
  · intro env cid host port fd v
    exact ⟨rfl, rfl⟩
  · intro ctx
    rfl
  · intro ctx ctx' run hrun hok
    cases run with
    | exitZero => exact absurd rfl hrun
    | containerError stderrOpt =>
      cases hfind : byteSeqFind failMarkerBytes (stderrOpt.getD []) with
      | some off =>
        cases hdec : utf8Decode ((stderrOpt.getD []).drop (off + 6)) with
        | some cs =>
          simp only [docker_test, hfind, hdec, PyResult.ok.injEq] at hok
          exact ⟨some cs.asString, none, by rw [← hok]⟩
        | none => simp [docker_test, hfind, hdec] at hok
      | none =>
        cases hdec : utf8Decode (stderrOpt.getD []) with
        | some cs =>
          simp only [docker_test, hfind, hdec, PyResult.ok.injEq] at hok
          exact ⟨none, some cs.asString, by rw [← hok]⟩
        | none => simp [docker_test, hfind, hdec] at hok
    | otherException msg =>
      simp only [docker_test, PyResult.ok.injEq] at hok
      exact ⟨none, some msg, by rw [← hok]⟩
  · intro ctx stderr off cs hfind hdec
    simp [docker_test, hfind, hdec]

/-- The byte stream `b"FAIL: flag-bad"`. -/
def stderrFlagBad : List Nat :=
  failMarkerBytes ++ [102, 108, 97, 103, 45, 98, 97, 100]

theorem verifier_contract_with_decodable_stderr_witness :
    byteSeqFind failMarkerBytes stderrFlagBad = some 0 ∧
    utf8Decode (stderrFlagBad.drop (0 + 6)) = some "flag-bad".toList ∧
    docker_test ctxVerifier (.containerError (some stderrFlagBad)) =
      .ok { ctxVerifier with errors := ctxVerifier.errors ++
        [.testErr ("Challenge " ++ toString ctxVerifier.challenge_id)
          ctxVerifier.flag (some ("flag-bad".toList.asString)) none] } :=
  ⟨by decide, by decide,
    verifier_contract_with_decodable_stderr.2.2.2.2 ctxVerifier stderrFlagBad 0
      ("flag-bad".toList) (by decide) (by decide)⟩

/-! ## Cluster manifest synthesis (`src/ctf_builder/models/deploy/docker.py`,
`src/ctf_builder/k8s/models.py`) -/

/-- `to_docker_tag` (`src/ctf_builder/docker.py:4-10`): replace spaces by
dashes and lower-case, then optionally prefix with
`repository.rstrip("/ ") + "/"` when the repository string is truthy. -/
def to_docker_tag (text : String) (repository : Option String) : String :=
  let tag := (text.toList.map (fun c => if c = ' ' then '-' else c.toLower)).asString
  match repository with
  | some repo =>
    if repo ≠ "" then
      ((repo.toList.reverse.dropWhile (fun c => c = '/' ∨ c = ' ')).reverse.asString)
        ++ "/" ++ tag
    else tag
  | none => tag

/-- Transport protocols of the cluster API (`src/ctf_builder/k8s/models.py`). -/
inductive K8sPortProtocol where
  | tcp
  | udp
  | sctp
deriving DecidableEq, Repr

/-- Service types of the cluster API (`src/ctf_builder/k8s/models.py`). -/
inductive K8sServiceType where
  | clusterIP
  | nodePort
  | loadBalancer
  | externalName
deriving DecidableEq, Repr

/-- Image pull policies of the cluster API (`src/ctf_builder/k8s/models.py`). -/
inductive K8sImagePullPolicy where
  | ifNotPresent
  | always
  | never
deriving DecidableEq, Repr

/-- Port kinds of the deploy model (`src/ctf_builder/models/port.py`). -/
inductive PortType where
  | http
  | https
  | tcp
  | udp
  | ws
  | wss
deriving DecidableEq, Repr

/-- `k8s_port_protocol` of the concrete port classes
(`src/ctf_builder/models/port.py:36-96`): UDP ports map to UDP, every other
kind to TCP. -/
def k8s_port_protocol : PortType → K8sPortProtocol
  | .udp => .udp
  | _ => .tcp

/-- A declared deploy port (`src/ctf_builder/models/port.py:21-25`). -/
structure Port where
  type : PortType
  value : Int
  public : Bool
deriving DecidableEq, Repr

/-- `Healthcheck` (`src/ctf_builder/models/healthcheck.py`): the times are
seconds at the model level (rationals here in place of Python floats). -/
structure Healthcheck where
  test : String
  interval : ℚ
  timeout : ℚ
  retries : Int
  start_period : ℚ
deriving DecidableEq, Repr

/-- `CPU` limits (`src/ctf_builder/models/deploy/cpu.py`). -/
structure CPU where
  min : Option String
  max : Option String
deriving DecidableEq, Repr

/-- `Memory` limits (`src/ctf_builder/models/deploy/memory.py`). -/
structure Memory where
  min : Option String
  max : Option String
deriving DecidableEq, Repr

/-- The fields of `DeployDocker` consumed by `k8s_build`; the `args`/`env`
argument sources resolve through external file reads, so their outcomes are
threaded separately. -/
structure DeployDockerModel where
  ports : List Port
  healthcheck : Option Healthcheck
  cpu : Option CPU
  memory : Option Memory
deriving DecidableEq, Repr

structure K8sMetadata where
  name : Option String := none
  labels : List (String × String) := []
deriving DecidableEq, Repr

structure K8sContainerPort where
  containerPort : Int
  name : Option String := none
deriving DecidableEq, Repr

structure K8sContainerEnv where
  name : String
  value : String
deriving DecidableEq, Repr

structure K8sContainerLivenessProbeExec where
  command : List String
deriving DecidableEq, Repr

structure K8sContainerLivenessProbe where
  exec : K8sContainerLivenessProbeExec
  initialDelaySeconds : Int
  periodSeconds : Int
  successThreshold : Int
  failureThreshold : Int
deriving DecidableEq, Repr

structure K8sContainerResourceRequests where
  cpu : Option String
  memory : Option String
deriving DecidableEq, Repr

structure K8sContainerResourceLimits where
  cpu : Option String
  memory : Option String
deriving DecidableEq, Repr

structure K8sContainerResources where
  requests : Option K8sContainerResourceRequests
  limits : Option K8sContainerResourceLimits
deriving DecidableEq, Repr

structure K8sContainer where
  name : String
  image : String
  imagePullPolicy : K8sImagePullPolicy
  ports : List K8sContainerPort
  env : List K8sContainerEnv
  livenessProbe : Option K8sContainerLivenessProbe
  resources : Option K8sContainerResources
deriving DecidableEq, Repr

structure K8sMatchSelector where
  matchLabels : List (String × String)
deriving DecidableEq, Repr

structure K8sPodSpec where
  containers : List K8sContainer
deriving DecidableEq, Repr

structure K8sPodTemplate where
  metadata : K8sMetadata
  spec : K8sPodSpec
deriving DecidableEq, Repr

structure K8sDeploymentSpec where
  replicas : Int
  selector : K8sMatchSelector
  template : K8sPodTemplate
deriving DecidableEq, Repr

structure K8sDeployment where
  apiVersion : String
  kind : String
  metadata : K8sMetadata
  spec : K8sDeploymentSpec
deriving DecidableEq, Repr

structure K8sServicePort where
  name : Option String
  protocol : K8sPortProtocol
  port : Int
  targetPort : Option Int
deriving DecidableEq, Repr

structure K8sServiceSpec where
  type : K8sServiceType
  selector : List (String × String)
  ports : List K8sServicePort
deriving DecidableEq, Repr

structure K8sService where
  apiVersion : String
  kind : String
  metadata : K8sMetadata
  spec : K8sServiceSpec
deriving DecidableEq, Repr

/-- A resource document in the emitted `K8sList` (the two kinds `k8s_build`
produces). -/
inductive K8sItem where
  | deployment (d : K8sDeployment)
  | service (s : K8sService)
deriving DecidableEq, Repr

structure K8sList where
  apiVersion : String
  kind : String
  metadata : K8sMetadata
  items : List K8sItem
deriving DecidableEq, Repr

/-- `K8sDeployContext` (`src/ctf_builder/models/deploy/base.py:34-43`); the
port generator is the stream of its successive `next()` values. -/
structure K8sDeployContext where
  name : String
  track : String
  repository : Option String
  port_generator : Nat → Option Int
  image_pull_policy : K8sImagePullPolicy

/-- Python `f"p-{v}"` applied to `next(port_generator)`, whose value may be
`None`. -/
def pyFormatOptInt : Option Int → String
  | some n => toString n
  | none => "None"

/-- The container-port list comprehension of `k8s_build`
(`src/ctf_builder/models/deploy/docker.py:362-372`): public ports are named
from the next generator value (one `next()` per public port, in order),
non-public ports from their own value. -/
def containerPortsFrom (gen : Nat → Option Int) :
    List Port → Nat → List K8sContainerPort
  | [], _ => []
  | p :: rest, consumed =>
    if p.public then
      { containerPort := p.value, name := some ("p-" ++ pyFormatOptInt (gen consumed)) }
        :: containerPortsFrom gen rest (consumed + 1)
    else
      { containerPort := p.value, name := some ("p-" ++ toString p.value) }
        :: containerPortsFrom gen rest consumed

/-- Python truthiness of an optional string (`None` and `""` are falsy), used
by the resource-limit conditions of `k8s_build`. -/
def optStrTruthy : Option String → Bool
  | some s => s ≠ ""
  | none => false

/-- `DeployDocker.k8s_build` (`src/ctf_builder/models/deploy/docker.py:333-465`):
resolve the environment sources (first failure returns no manifest and one
`BuildError`), then emit one Deployment with a single replica and — only when
the deploy declares ports — one ClusterIP Service exposing every declared
port under the name `p-{value}`.  The function is pure data construction:
no cluster API is involved. -/
def k8s_build (self : DeployDockerModel) (ctx : K8sDeployContext)
    (envResults : List (Option (List (String × String)))) :
    Option K8sList × List LibError :=
  match resolveArgsMap envResults with
  | none => (none, [.buildErr ctx.name "invalid environment" none])
  | some environment =>
    let tagName := to_docker_tag ctx.name none
    let labels := [("type", "challenge"), ("track", to_docker_tag ctx.track none),
                   ("challenge", tagName)]
    let container : K8sContainer :=
      { name := tagName
        image := to_docker_tag ctx.name ctx.repository
        imagePullPolicy := ctx.image_pull_policy
        ports := containerPortsFrom ctx.port_generator self.ports 0
        env := environment.map (fun p => { name := p.1, value := p.2 })
        livenessProbe :=
          match self.healthcheck with
          | some hc =>
            some { exec := { command := ["/bin/sh", "-c", hc.test] }
                   initialDelaySeconds := ⌈hc.start_period⌉
                   periodSeconds := ⌈hc.interval⌉
                   successThreshold := 1
                   failureThreshold := hc.retries }
          | none => none
        resources :=
          if self.cpu.isSome || self.memory.isSome then
            some { requests :=
                     if optStrTruthy (self.cpu.bind (fun c => c.min)) ||
                        optStrTruthy (self.memory.bind (fun m => m.min)) then
                       some { cpu := self.cpu.bind (fun c => c.min)
                              memory := self.memory.bind (fun m => m.min) }
                     else none
                   limits :=
                     if optStrTruthy (self.cpu.bind (fun c => c.max)) ||
                        optStrTruthy (self.memory.bind (fun m => m.max)) then
                       some { cpu := self.cpu.bind (fun c => c.max)
                              memory := self.memory.bind (fun m => m.max) }
                     else none }
          else none }
    let deployment : K8sDeployment :=
      { apiVersion := "apps/v1"
        kind := "Deployment"
        metadata := { name := some tagName, labels := labels }
        spec :=
          { replicas := 1
            selector := { matchLabels := [("challenge", tagName)] }
            template :=
              { metadata := { name := some tagName, labels := labels }
                spec := { containers := [container] } } } }
    let items : List K8sItem :=
      [.deployment deployment] ++
        (if self.ports ≠ [] then
          [.service
            { apiVersion := "v1"
              kind := "Service"
              metadata := { name := some tagName, labels := labels }
              spec :=
                { type := .clusterIP
                  selector := [("challenge", tagName)]
                  ports := self.ports.map (fun p =>
                    { name := some ("p-" ++ toString p.value)
                      protocol := k8s_port_protocol p.type
                      port := p.value
                      targetPort := some p.value }) } }]
        else [])
    (some { apiVersion := "v1", kind := "List", metadata := {}, items := items }, [])

/-- C8.  When the environment sources resolve, `k8s_build` returns a manifest
and no errors; the manifest's items are exactly one Deployment with one
replica, followed — if and only if the deploy declares at least one port — by
one Service whose port list exposes every declared port under the name
`p-{value}`.  The synthesis is a pure data-producing function; no cluster
client appears in its inputs. -/
theorem k8s_build_one_workload_service_iff_ports (self : DeployDockerModel)
    (ctx : K8sDeployContext) (envResults : List (Option (List (String × String))))
    (henv : (resolveArgsMap envResults).isSome = true) :
    ∃ manifest d s,
      k8s_build self ctx envResults = (some manifest, []) ∧
      manifest.items =
        .deployment d :: (if self.ports ≠ [] then [.service s] else []) ∧
      d.spec.replicas = 1 ∧
      s.spec.ports = self.ports.map (fun p =>
        { name := some ("p-" ++ toString p.value)
          protocol := k8s_port_protocol p.type
          port := p.value
          targetPort := some p.value }) := by
  obtain ⟨environment, henv'⟩ := Option.isSome_iff_exists.mp henv
  unfold k8s_build
  rw [henv']
  exact ⟨_, _, _, rfl, rfl, rfl, rfl⟩

/-- A concrete deploy for the C8 manifest shape: one public TCP port, a
healthcheck, no resource limits, trivially resolving environment. -/
def deployOnePort : DeployDockerModel :=
  { ports := [{ type := .tcp, value := 1337, public := true }]
    healthcheck := some { test := "true", interval := 1, timeout := 1,
                          retries := 3, start_period := 0 }
    cpu := none
    memory := none }

/-- A concrete synthesis context for the C8 witness. -/
def k8sCtxSample : K8sDeployContext :=
  { name := "Sample 0"
    track := "Sample"
    repository := some "registry.local/ctf/"
    port_generator := fun _ => none
    image_pull_policy := .always }

theorem k8s_build_one_workload_service_iff_ports_witness :
    (resolveArgsMap ([] : List (Option (List (String × String))))).isSome = true ∧
    (∃ manifest d s,
      k8s_build deployOnePort k8sCtxSample [] = (some manifest, []) ∧
      manifest.items =
        .deployment d :: (if deployOnePort.ports ≠ [] then [.service s] else []) ∧
      d.spec.replicas = 1 ∧
      s.spec.ports = deployOnePort.ports.map (fun p =>
        { name := some ("p-" ++ toString p.value)
          protocol := k8s_port_protocol p.type
          port := p.value
          targetPort := some p.value })) :=
  ⟨rfl, k8s_build_one_workload_service_iff_ports deployOnePort k8sCtxSample [] rfl⟩

/-! ## The test orchestrator (`src/ctf_builder/cmd/test.py`) -/

/-- External behavior of one deployer under the `test` operation: the
outcomes the calls `builder.start(..., skip_reuse=False)`,
`builder.has_healthcheck(...)` and `is_healthy(...)` (per poll attempt)
would have if they were reached.  In this source none of them is ever
reached — `BuildDeployer.get` raises first and the two healthcheck methods
do not exist on the class — but the oracles are kept so the embedding
mirrors every call site of `test`. -/
structure DeployerBehavior where
  startResult : PyResult (List LibError)
  hasHealthcheckResult : PyResult Bool
  healthyResult : Nat → PyResult Bool

/-- The declared parameters (after the bound class argument) of
`BuildDeployerDocker.stop` (`src/ctf_builder/build/deployer.py:250-253`);
the method declares no `**kwargs`. -/
def buildDeployerDockerStopParams : List String := ["context", "deployer"]

/-- The keyword arguments of the teardown stop call in `test`
(`src/ctf_builder/cmd/test.py:113-115`). -/
def testTeardownStopKeywords : List String := ["deployer", "context", "skip_not_found"]

/-- Python keyword binding: a call made purely with keyword arguments binds
only when every keyword names a declared parameter; otherwise the call raises
`TypeError` before the callee's body runs. -/
def pyKeywordsBind (params kwargs : List String) : Bool :=
  kwargs.all (fun k => params.contains k)

/-- The external interactions of one `test` run
(`src/ctf_builder/cmd/test.py:30-125`): docker-client presence, the
`create_network` outcome, the per-deployer behaviors (aligned with
`track.deploy`), the per-tester `BuildTester...build` outcomes (aligned with
`track.test`), the outcome the body of `BuildDeployerDocker.stop` would have
for each deploy index if the teardown call bound, and the `network.remove()`
outcome. -/
structure TestWorld where
  clientPresent : Bool
  networkCreated : Bool
  deployers : List DeployerBehavior
  testers : List (PyResult (List LibError))
  stopBody : Nat → PyResult (List LibError)
  removeOk : Bool

/-- Mutable state of the deploy-start loop (`src/ctf_builder/cmd/test.py:45-69`):
accumulated errors, the deploys tracked for teardown (`running_deployers`),
the healthcheck-bearing deploys tracked for polling (`waiting_deployers`),
and whether the loop raised. -/
structure StartPhase where
  errors : List LibError
  running : List (Nat × DeployerBehavior)
  waiting : List (Nat × DeployerBehavior)
  raised : Bool

/-- The deploy-start loop (`src/ctf_builder/cmd/test.py:47-69`): per deploy,
first `builder = BuildDeployer.get(deployer)` at line 56 — which in this
source raises `AssertionError` (`buildDeployerGet`), so the loop never gets
further; were it to resolve, `start` errors are accumulated, an error-free
start is appended to `running_deployers`, and then the
`builder.has_healthcheck` attribute is looked up (absent on the class:
`AttributeError`) and, when the call returned `True`, the deploy joins
`waiting_deployers`.  An exception stops the loop; a deploy whose `start`
succeeded is tracked even when the `has_healthcheck` step raises. -/
def startLoop : List DeployerBehavior → Nat → StartPhase → StartPhase
  | [], _, acc => acc
  | d :: rest, i, acc =>
    match buildDeployerGet with
    | .exc => { acc with raised := true }
    | .ok _ =>
      match d.startResult with
      | .exc => { acc with raised := true }
      | .ok errs =>
        let acc1 := { acc with errors := acc.errors ++ errs }
        if errs = [] then
          let acc2 := { acc1 with running := acc1.running ++ [(i, d)] }
          match pyGetAttr buildDeployerDockerAttrs "has_healthcheck" with
          | .exc => { acc2 with raised := true }
          | .ok _ =>
            match d.hasHealthcheckResult with
            | .exc => { acc2 with raised := true }
            | .ok b =>
              startLoop rest (i + 1)
                (if b then { acc2 with waiting := acc2.waiting ++ [(i, d)] }
                 else acc2)
        else startLoop rest (i + 1) acc1

/-- One pass over `waiting_deployers` (`src/ctf_builder/cmd/test.py:79-85`):
per deploy, `BuildDeployer.get(deployer)` (raises in this source), then the
`is_healthy` attribute lookup (absent on the class), then the call; healthy
deploys are dropped, the rest are kept for the next attempt; any raise
propagates. -/
def pollFilter (t : Nat) :
    List (Nat × DeployerBehavior) → PyResult (List (Nat × DeployerBehavior))
  | [] => .ok []
  | (i, d) :: rest =>
    match buildDeployerGet with
    | .exc => .exc
    | .ok _ =>
      match pyGetAttr buildDeployerDockerAttrs "is_healthy" with
      | .exc => .exc
      | .ok _ =>
        match d.healthyResult t with
        | .exc => .exc
        | .ok true => pollFilter t rest
        | .ok false =>
          match pollFilter t rest with
          | .exc => .exc
          | .ok next => .ok ((i, d) :: next)

/-- Result of the bounded health-poll loop. -/
inductive PollResult where
  | allHealthy
  | exhausted
  | raised
deriving DecidableEq, Repr

/-- The `for i in range(DEPLOY_ATTEMPTS) … else` loop
(`src/ctf_builder/cmd/test.py:74-97`): break as soon as a pass leaves nothing
waiting; running out of attempts without a break reaches the `else` branch
(`exhausted`). -/
def pollLoop (attempts t : Nat) (waiting : List (Nat × DeployerBehavior)) :
    PollResult :=
  match attempts with
  | 0 => .exhausted
  | a + 1 =>
    match pollFilter t waiting with
    | .exc => .raised
    | .ok next => if next.isEmpty then .allHealthy else pollLoop a (t + 1) next

/-- The tester loop (`src/ctf_builder/cmd/test.py:99-109`): per tester,
`BuildTester.get(tester)` (raises in this source), then the `build` call;
each tester's errors are accumulated and a raise propagates. -/
def runTesters : List (PyResult (List LibError)) → PyResult (List LibError)
  | [] => .ok []
  | r :: rest =>
    match buildTesterGet with
    | .exc => .exc
    | .ok _ =>
      match r with
      | .exc => .exc
      | .ok errs =>
        match runTesters rest with
        | .exc => .exc
        | .ok more => .ok (errs ++ more)

/-- How the `try` body of `test` exited. -/
inductive BodyExit where
  | ret (errors : List LibError)
  | raised
deriving DecidableEq, Repr

/-- The `try` body of `test` (`src/ctf_builder/cmd/test.py:44-109`), returning
its exit and the `running_deployers` list available to the `finally` block.
The start loop runs only when a network exists (`if network:` at line 46); an
accumulated start error returns early; exhausting the poll attempts appends
one fatal `DeployError` and returns; otherwise the testers run. -/
def testBody (attempts : Nat) (w : TestWorld) (networkPresent : Bool) :
    BodyExit × List (Nat × DeployerBehavior) :=
  let init : StartPhase := { errors := [], running := [], waiting := [], raised := false }
  let sp := if networkPresent then startLoop w.deployers 0 init else init
  if sp.raised then (.raised, sp.running)
  else if sp.errors ≠ [] then (.ret sp.errors, sp.running)
  else
    match pollLoop attempts 0 sp.waiting with
    | .raised => (.raised, sp.running)
    | .exhausted =>
      (.ret (sp.errors ++ [.deployErr "Deployments" "did not start successfully" none]),
        sp.running)
    | .allHealthy =>
      match runTesters w.testers with
      | .exc => (.raised, sp.running)
      | .ok terrs => (.ret (sp.errors ++ terrs), sp.running)

/-- What the `finally` block did: the stop calls attempted, the stop calls
that ran to completion and returned (only these can remove a container and
contribute errors), and whether `network.remove()` was attempted. -/
structure TeardownTrace where
  stopsAttempted : List Nat
  stopsReturned : List Nat
  removeAttempted : Bool
deriving DecidableEq, Repr

/-- The stop loop of the `finally` block (`src/ctf_builder/cmd/test.py:111-117`):
each tracked deploy gets one
`BuildDeployer.get(deployer).stop(deployer=…, context=…, skip_not_found=False)`
call inside `try: … except: pass`.  The dispatch raises in this source; were
it to resolve, the call would still have to bind its keywords against
`BuildDeployerDocker.stop`'s parameters, and a binding failure raises
`TypeError` before the stop body runs.  Either raise is swallowed by the
bare `except` and the loop continues.  Returns (accumulated stop errors,
stops attempted, stops returned). -/
def teardownStops (stopBody : Nat → PyResult (List LibError)) :
    List (Nat × DeployerBehavior) → List LibError × List Nat × List Nat
  | [] => ([], [], [])
  | (i, _) :: rest =>
    let (errs, att, ret) := teardownStops stopBody rest
    match buildDeployerGet with
    | .exc => (errs, i :: att, ret)
    | .ok _ =>
      if pyKeywordsBind buildDeployerDockerStopParams testTeardownStopKeywords then
        match stopBody i with
        | .ok stopErrs => (stopErrs ++ errs, i :: att, i :: ret)
        | .exc => (errs, i :: att, ret)
      else (errs, i :: att, ret)

/-- How `test` finishes: a returned error list, or a propagated exception
(after the `finally` block ran). -/
inductive TestExit where
  | ret (errors : List LibError)
  | raised
deriving DecidableEq, Repr

/-- `test` (`src/ctf_builder/cmd/test.py:30-125`): a failed network creation
returns one fatal error before any resource exists; otherwise the body runs
and the `finally` block stops every tracked deploy and removes the network
regardless of how the body exited, `DEPLOY_ATTEMPTS` being threaded as
`attempts`.  Stop errors returned to the `finally` block are appended to the
result; a raised body re-raises after teardown. -/
def test (attempts : Nat) (w : TestWorld) : TestExit × TeardownTrace :=
  if w.clientPresent && !w.networkCreated then
    (.ret [.deployErr "Network" "failed to start" none],
      { stopsAttempted := [], stopsReturned := [], removeAttempted := false })
  else
    let networkPresent := w.clientPresent
    let (bodyExit, running) := testBody attempts w networkPresent
    let (stopErrs, att, ret) := teardownStops w.stopBody running
    let trace : TeardownTrace :=
      { stopsAttempted := att, stopsReturned := ret, removeAttempted := networkPresent }
    match bodyExit with
    | .raised => (.raised, trace)
    | .ret errors => (.ret (errors ++ stopErrs), trace)

/-- A run over a track with one deploy: the network is created, the deploy's
oracles describe a clean start (they are never consulted, since dispatch
raises first), there are no testers, and the stop body would return no
errors if it were ever reached. -/
def worldOneDeploy : TestWorld :=
  { clientPresent := true
    networkCreated := true
    deployers := [{ startResult := .ok [], hasHealthcheckResult := .ok false,
                    healthyResult := fun _ => .ok true }]
    testers := []
    stopBody := fun _ => .ok []
    removeOk := true }

/-- C1.  On this source the `test` operation cannot perform the teardown the
claim describes.  For a track with one deploy, `BuildDeployer.get` at
`cmd/test.py:56` raises `AssertionError` (via `subclass_get`'s assertion on
the absent `__orig_bases__`) inside the `try` before `start` is ever
called: no deploy is ever started or tracked, the `finally` block attempts
no stop, only the network removal is attempted, and the exception propagates
with no returned result for teardown errors to be accumulated into.
Independently, the methods the poll phase needs do not exist on the class,
and the teardown stop call passes `skip_not_found`, which
`BuildDeployerDocker.stop` does not declare, so even a tracked deploy's stop
call could never bind. -/
theorem test_run_crashes_before_any_deploy_starts :
    buildDeployerGet = .exc ∧
    pyGetAttr buildDeployerDockerAttrs "has_healthcheck" = .exc ∧
    pyGetAttr buildDeployerDockerAttrs "is_healthy" = .exc ∧
    pyKeywordsBind buildDeployerDockerStopParams testTeardownStopKeywords = false ∧
    (test 10 worldOneDeploy).1 = .raised ∧
    (test 10 worldOneDeploy).2.stopsAttempted = [] ∧
    (test 10 worldOneDeploy).2.stopsReturned = [] ∧
    (test 10 worldOneDeploy).2.removeAttempted = true := by
  refine ⟨by decide, by decide, by decide, by decide, by decide, by decide,
    by decide, by decide⟩

end CtfBuilder
